import Mathlib

/-!
Verification of the assessment-data-pipeline core: the provider-agnostic
generation abstraction (the `llm` package) and the retrying extraction
element (`ExtractInsights`), shallowly embedded from the Go sources.

Modelling conventions:
* Go `float64` configuration fields (temperature, topP) are modelled as `ℚ`
  (no floating-point arithmetic occurs on them; they are only stored,
  forwarded and compared).
* Go `int` fields are modelled as `Int`.
* The external provider clients (Anthropic, Mistral, Gemini SDKs) are
  modelled as function parameters from a request value to a response or
  error; each adapter's `GenerateText` returns, besides its Go result, the
  list of requests it actually issued (so "no request was executed" is the
  statement that this list is empty) and the adapter value after the call
  (the Go methods never assign to their receiver's fields, so the
  translation threads the receiver through unchanged).
* The stateful external world seen by the retry loop is modelled by
  indexing the capability's outcome with the number of calls made so far.
-/

namespace Pipeline

/-! ## Tool descriptors (llm package)

The Go file defining `ToolType`, `GenericTool`, `GenerateOptions` and the
`NewAnthropicTool`/`NewMistralTool`/`NewGeminiTool` constructors is absent
from the sources; only its callers (the adapters) and its tests are
present. -/

/-- Stand-in for the external `anthropic.ToolDefinition` payload type. -/
structure AnthropicToolDefinition where
  name : String
  deriving DecidableEq, Repr

/-- Stand-in for the external `mistral.Tool` payload type. -/
structure MistralTool where
  name : String
  deriving DecidableEq, Repr

/-- Stand-in for the external `*genai.Tool` payload type. -/
structure GenaiTool where
  name : String
  deriving DecidableEq, Repr

/-- The provider tags carried by tool descriptors
(`AnthropicToolType`, `MistralToolType`, `GeminiToolType`). -/
inductive ToolType where
  | anthropicToolType
  | mistralToolType
  | geminiToolType
  deriving DecidableEq, Repr

/-- Modelled from the spec: the `GenericTool` / ToolDescriptor type, whose
defining Go file is missing from the sources (only the adapters that read
`.Type` and `.Tool` and the tests that build descriptors via
`NewAnthropicTool` / `NewMistralTool` / `NewGeminiTool` are present).
Per spec §3 it is a tagged union `(providerTag, payload)` where the
payload's concrete shape is determined by the provider tag. -/
inductive GenericTool where
  | anthropicTool (payload : AnthropicToolDefinition)
  | mistralTool (payload : MistralTool)
  | geminiTool (payload : GenaiTool)
  deriving DecidableEq, Repr

/-- The `Type` field of a descriptor: the provider tag set by the
corresponding constructor. -/
def GenericTool.toolType : GenericTool → ToolType
  | .anthropicTool _ => .anthropicToolType
  | .mistralTool _ => .mistralToolType
  | .geminiTool _ => .geminiToolType

/-- Modelled from the spec: `GenerateOptions`, the per-call options value
(ordered tool list plus optional response MIME type), whose defining Go
file is missing from the sources. -/
structure GenerateOptions where
  tools : List GenericTool := []
  responseMIMEType : String := ""
  deriving DecidableEq, Repr

/-- The generic errors an adapter's `GenerateText` can return, with the
exact Go `fmt.Errorf` text recoverable through `GenError.message`. -/
inductive GenError where
  | toolMismatch (provider : String)
  | invalidTool (provider : String)
  | geminiToolCastError
  | anthropicAPIError (typ msg : String)
  | anthropicOtherError (msg : String)
  | mistralChatError (msg : String)
  | geminiSendError (msg : String)
  deriving DecidableEq, Repr

/-- The Go error message of each adapter error. -/
def GenError.message : GenError → String
  | .toolMismatch provider => "error: tool type mismatch for " ++ provider ++ " LLM"
  | .invalidTool provider => "error: invalid tool type for " ++ provider ++ " LLM"
  | .geminiToolCastError => "tool doesn't implement genai.Tool"
  | .anthropicAPIError typ msg =>
      "anthropic API error, type: " ++ typ ++ ", message: " ++ msg
  | .anthropicOtherError msg => "anthropic API error: " ++ msg
  | .mistralChatError msg => "error getting chat completion: " ++ msg
  | .geminiSendError msg => "error sending message: " ++ msg

/-- Transport/provider failures are retryable; tool errors are caller
defects. -/
def GenError.isTransport : GenError → Bool
  | .toolMismatch _ => false
  | .invalidTool _ => false
  | .geminiToolCastError => false
  | .anthropicAPIError _ _ => true
  | .anthropicOtherError _ => true
  | .mistralChatError _ => true
  | .geminiSendError _ => true

/-! ## The extraction element (`ExtractInsights` DoFn) -/

/-- An input record: `Assessment { Result string }`. -/
structure Assessment where
  result : String
  deriving DecidableEq, Repr

/-- The decoded insights structure (`InsightsResult` with its JSON field
tags); the two Go `map[string]string` fields are modelled as association
lists. -/
structure InsightsResult where
  overallAssessment : String
  correctAnswers : Int
  strengths : List String
  weaknesses : List String
  actionableFeedback : List (String × String)
  businessImpact : List (String × String)
  deriving DecidableEq, Repr

/-- The Go zero value `InsightsResult{}`. -/
def zeroInsightsResult : InsightsResult :=
  { overallAssessment := ""
    correctAnswers := 0
    strengths := []
    weaknesses := []
    actionableFeedback := []
    businessImpact := [] }

/-- The configuration fields of the `ExtractInsights` DoFn (its `model`
field, an external `llm.LanguageModel`, is passed to `processElement` as a
function; `InsightsSchema` is set by `Setup`). `RetryDelay` is a
`time.Duration` in nanoseconds. -/
structure ExtractInsightsCfg where
  insightsSchema : String := ""
  maxRetries : Int := 0
  retryDelay : Int := 0
  deriving DecidableEq, Repr

/-- Go `NewExtractInsights`: stores the retry settings, nothing more. -/
def newExtractInsights (maxRetries retryDelay : Int) : ExtractInsightsCfg :=
  { maxRetries := maxRetries, retryDelay := retryDelay }

/-- The failure cases of one `extractInsights` attempt, wrapping the
underlying cause exactly as the Go code does. -/
inductive ExtractErr where
  | generating (e : GenError)
  | unmarshaling (msg : String)
  deriving DecidableEq, Repr

/-- The prompt built by `extractInsights` from the schema and the
assessment narrative (the `fmt.Sprintf` format string, verbatim). -/
def buildPrompt (schema resultText : String) : String :=
  "Given the following assessment from a user's performance on the Professional Data Engineer Certification Prep:\n"
    ++ resultText
    ++ "\nPlease extract key insights and respond in the following JSON schema:\n"
    ++ schema
    ++ " . Remove any ```json or ``` characters. Avoid any comments or explanations"

/-- The options value `extractInsights` passes on every call. -/
def jsonGenerateOptions : GenerateOptions :=
  { tools := [], responseMIMEType := "application/json" }

/-- A capability as seen by the retry loop: the Go code calls
`ei.model.GenerateText` with identical arguments on every attempt and the
outcomes differ only through the external world, so the model is indexed
by the number of capability calls already made. -/
def Capability : Type :=
  Nat → String → GenerateOptions → Except GenError String

/-- One `extractInsights` attempt: build the prompt, invoke the capability
(`attempt` is the index of this call), then `json.Unmarshal` the response
text. `unmarshal` stands for Go's `json.Unmarshal` into `InsightsResult`
(the `encoding/json` library is external to this core). -/
def extractInsights (ei : ExtractInsightsCfg) (gen : Capability)
    (unmarshal : String → Except String InsightsResult)
    (assessment : Assessment) (attempt : Nat) :
    Except ExtractErr InsightsResult :=
  let prompt := buildPrompt ei.insightsSchema assessment.result
  match gen attempt prompt jsonGenerateOptions with
  | .error e => .error (.generating e)
  | .ok text =>
    match unmarshal text with
    | .error msg => .error (.unmarshaling msg)
    | .ok insights => .ok insights

/-- Whether an `Except` is in its error case. -/
def isErr {ε α : Type} : Except ε α → Bool
  | .error _ => true
  | .ok _ => false

/-- The Go loop `for attempt := 0; attempt < ei.MaxRetries; attempt++`:
`fuel` is the number of iterations still allowed, `attempt` the current
index. Returns the list of values passed to `emit` together with the
number of `extractInsights` calls (capability invocations) made. -/
def processElementLoop (extract : Nat → Except ExtractErr InsightsResult) :
    Nat → Nat → List InsightsResult × Nat
  | 0, _ => ([], 0)
  | fuel + 1, attempt =>
    match extract attempt with
    | .ok insights => ([insights], 1)
    | .error _ =>
      let rest := processElementLoop extract fuel (attempt + 1)
      (rest.1, rest.2 + 1)

/-- Go `ProcessElement`: run up to `MaxRetries` attempts (none at all when
`MaxRetries ≤ 0`, since the Go loop condition `attempt < ei.MaxRetries`
fails immediately); emit the first success and stop; on exhaustion log and
emit nothing. -/
def processElement (ei : ExtractInsightsCfg) (gen : Capability)
    (unmarshal : String → Except String InsightsResult)
    (assessment : Assessment) : List InsightsResult × Nat :=
  processElementLoop (extractInsights ei gen unmarshal assessment)
    ei.maxRetries.toNat 0

/-! ## Provider adapters -/

/-- The tools field of a possibly-nil options pointer (`opts != nil &&
len(opts.Tools) > 0` guards collapse to iterating this list, which is
empty exactly when the guard is false). -/
def optTools : Option GenerateOptions → List GenericTool
  | none => []
  | some o => o.tools

/-- The `anthropicLLM` configuration fields; the Go struct's `client`
field is an external object and is passed to `anthropicGenerateText` as a
function, with the API key it was built from recorded here. -/
structure AnthropicLLM where
  modelName : String
  temperature : ℚ
  maxTokens : Int
  topP : ℚ
  apiKey : String := ""
  deriving DecidableEq, Repr

/-- The `anthropic.MessagesRequest` the adapter submits. -/
structure AnthropicRequest where
  model : String
  messages : List String
  maxTokens : Int
  temperature : ℚ
  topP : ℚ
  tools : List AnthropicToolDefinition
  deriving DecidableEq, Repr

/-- The ways the external Anthropic client can fail: an
`anthropic.APIError` (matched by `errors.As`) or any other error. -/
inductive AnthropicClientError where
  | api (typ msg : String)
  | other (msg : String)
  deriving DecidableEq, Repr

/-- The Anthropic response, reduced to the text of its content segments
(`resp.Content[i].Text`). -/
structure AnthropicResponse where
  content : List String
  deriving DecidableEq, Repr

/-- The tool-handling loop of `anthropicLLM.GenerateText`: on the first
descriptor whose `Type` is not `AnthropicToolType`, fail with the
tool-type-mismatch error; otherwise extract the payload (the Go type
assertion; in the tagged union a matching tag forces the Anthropic
payload, so the `invalidTool` branch is unreachable) and append in
order. -/
def anthropicCollectTools : List GenericTool → Except GenError (List AnthropicToolDefinition)
  | [] => .ok []
  | t :: rest =>
    if t.toolType ≠ ToolType.anthropicToolType then
      .error (.toolMismatch "Anthropic")
    else
      match t with
      | .anthropicTool payload =>
        match anthropicCollectTools rest with
        | .error e => .error e
        | .ok payloads => .ok (payload :: payloads)
      | _ => .error (.invalidTool "Anthropic")

/-- The request `anthropicLLM.GenerateText` constructs (the local
`float32` casts of temperature and topP are the identity on `ℚ`). -/
def anthropicBuildRequest (a : AnthropicLLM) (prompt : String)
    (tools : List AnthropicToolDefinition) : AnthropicRequest :=
  { model := a.modelName
    messages := [prompt]
    maxTokens := a.maxTokens
    temperature := a.temperature
    topP := a.topP
    tools := tools }

/-- What one adapter call produced: the Go return value, the provider
requests actually issued, and the adapter value after the call. -/
structure AnthropicOutcome where
  result : Except GenError String
  requests : List AnthropicRequest
  final : AnthropicLLM
  deriving Repr

/-- Go `anthropicLLM.GenerateText` (the revision taking `*GenerateOptions`):
tool handling first (returning before any request on failure), then
`CreateMessages`, then the first content segment's text verbatim
(`*resp.Content[0].Text`). -/
def anthropicGenerateText (a : AnthropicLLM)
    (client : AnthropicRequest → Except AnthropicClientError AnthropicResponse)
    (prompt : String) (opts : Option GenerateOptions) : AnthropicOutcome :=
  match anthropicCollectTools (optTools opts) with
  | .error e => { result := .error e, requests := [], final := a }
  | .ok tools =>
    let req := anthropicBuildRequest a prompt tools
    match client req with
    | .error (.api typ msg) =>
      { result := .error (.anthropicAPIError typ msg), requests := [req], final := a }
    | .error (.other msg) =>
      { result := .error (.anthropicOtherError msg), requests := [req], final := a }
    | .ok resp =>
      { result := .ok (resp.content.getD 0 ""), requests := [req], final := a }

/-- The `mistralLLM` configuration fields; the external client (built by
`mistral.NewMistralClientDefault`, which reads `MISTRAL_API_KEY` itself)
is passed to `mistralGenerateText` as a function. -/
structure MistralLLM where
  modelName : String
  temperature : ℚ
  maxTokens : Int
  topP : ℚ
  deriving DecidableEq, Repr

/-- The arguments of `client.Chat`: model, messages, and
`ChatRequestParams`. -/
structure MistralRequest where
  model : String
  messages : List String
  temperature : ℚ
  maxTokens : Int
  topP : ℚ
  tools : List MistralTool := []
  deriving DecidableEq, Repr

/-- The Mistral response, reduced to the message contents of its choices
(`resp.Choices[i].Message.Content`). -/
structure MistralResponse where
  choices : List String
  deriving DecidableEq, Repr

/-- What one Mistral call produced. -/
structure MistralOutcome where
  result : Except GenError String
  requests : List MistralRequest
  final : MistralLLM
  deriving Repr

/-- The arguments `mistralLLM.GenerateText` hands to `client.Chat`. -/
def mistralBuildRequest (m : MistralLLM) (prompt : String)
    (tools : List MistralTool) : MistralRequest :=
  { model := m.modelName
    messages := [prompt]
    temperature := m.temperature
    maxTokens := m.maxTokens
    topP := m.topP
    tools := tools }

/-- Go `mistralLLM.GenerateText` (the current two-argument revision, no
options): one `Chat` request, then the first choice's message content
verbatim (`resp.Choices[0].Message.Content`). -/
def mistralGenerateText (m : MistralLLM)
    (client : MistralRequest → Except String MistralResponse)
    (prompt : String) : MistralOutcome :=
  let req := mistralBuildRequest m prompt []
  match client req with
  | .error msg =>
    { result := .error (.mistralChatError msg), requests := [req], final := m }
  | .ok resp =>
    { result := .ok (resp.choices.getD 0 ""), requests := [req], final := m }

/-- The tag-checking tool loop for Mistral, mirroring the Anthropic and
Gemini ones. -/
def mistralCollectTools : List GenericTool → Except GenError (List MistralTool)
  | [] => .ok []
  | t :: rest =>
    if t.toolType ≠ ToolType.mistralToolType then
      .error (.toolMismatch "Mistral")
    else
      match t with
      | .mistralTool payload =>
        match mistralCollectTools rest with
        | .error e => .error e
        | .ok payloads => .ok (payload :: payloads)
      | _ => .error (.invalidTool "Mistral")

/-- Modelled from the spec: the Mistral adapter revision taking
`*GenerateOptions`, whose implementation is missing from the sources (only
its test `TestGenerateTextWithInvalidTools`, which passes a Gemini tool to
a `mistralLLM` and expects an error, is present). Per spec §4.2 it
iterates the descriptors, asserts each tag matches this adapter's
provider, fails on the first mismatch with a tool-type-mismatch error
naming the expected provider before any request, then issues the request
and returns the first choice verbatim. -/
def mistralGenerateTextTagged (m : MistralLLM)
    (client : MistralRequest → Except String MistralResponse)
    (prompt : String) (opts : Option GenerateOptions) : MistralOutcome :=
  match mistralCollectTools (optTools opts) with
  | .error e => { result := .error e, requests := [], final := m }
  | .ok tools =>
    let req := mistralBuildRequest m prompt tools
    match client req with
    | .error msg =>
      { result := .error (.mistralChatError msg), requests := [req], final := m }
    | .ok resp =>
      { result := .ok (resp.choices.getD 0 ""), requests := [req], final := m }

/-- The `geminiLLM` configuration fields (non-generic revision); the
external `*genai.Client` is passed to `geminiGenerateText` as a function,
with the API key it was built from recorded here. -/
structure GeminiLLM where
  modelName : String
  temperature : ℚ
  maxTokens : Int
  topP : ℚ
  apiKey : String := ""
  deriving DecidableEq, Repr

/-- The state of the `genai.GenerativeModel` and chat session at the
moment `SendMessage` is called: everything the adapter configured plus the
message itself. -/
structure GeminiRequest where
  modelName : String
  temperature : ℚ
  topP : ℚ
  maxOutputTokens : Int
  topK : Int
  responseMIMEType : String
  tools : List GenaiTool
  history : List String
  prompt : String
  deriving DecidableEq, Repr

/-- The Gemini response, reduced to the parts of each candidate's content
(`resp.Candidates[i].Content.Parts`, each part rendered by `%v`). -/
structure GeminiResponse where
  candidates : List (List String)
  deriving DecidableEq, Repr

/-- What one Gemini call produced. -/
structure GeminiOutcome where
  result : Except GenError String
  requests : List GeminiRequest
  final : GeminiLLM
  deriving Repr

/-- The tool-handling loop of the non-generic `geminiLLM.GenerateText`:
first descriptor whose `Type` is not `GeminiToolType` fails with the
tool-type-mismatch error; otherwise the payload is extracted (the
`*genai.Tool` assertion; unreachable `invalidTool` branch under the tagged
union) and appended in order. -/
def geminiCollectTools : List GenericTool → Except GenError (List GenaiTool)
  | [] => .ok []
  | t :: rest =>
    if t.toolType ≠ ToolType.geminiToolType then
      .error (.toolMismatch "Gemini")
    else
      match t with
      | .geminiTool payload =>
        match geminiCollectTools rest with
        | .error e => .error e
        | .ok payloads => .ok (payload :: payloads)
      | _ => .error (.invalidTool "Gemini")

/-- The output accumulation loop over the first candidate's parts:
`output = fmt.Sprintf("%v\n", part)` inside `for _, part := range parts`,
i.e. each iteration overwrites the accumulator with the current part plus
a newline. -/
def overwriteParts (parts : List String) : String :=
  parts.foldl (fun _ part => part ++ "\n") ""

/-- The `genai.GenerativeModel` state the non-generic revision sends:
adapter fields, `TopK` 64, and `ResponseMIMEType` fixed at
`"text/plain"`. -/
def geminiBuildRequest (g : GeminiLLM) (prompt : String)
    (tools : List GenaiTool) : GeminiRequest :=
  { modelName := g.modelName
    temperature := g.temperature
    topP := g.topP
    maxOutputTokens := g.maxTokens
    topK := 64
    responseMIMEType := "text/plain"
    tools := tools
    history := []
    prompt := prompt }

/-- The non-generic `geminiLLM.GenerateText` (the revision the extraction
element uses): configures the model with the adapter's fields, `TopK` 64
and `ResponseMIMEType` fixed at `"text/plain"` (this revision never reads
`opts.ResponseMIMEType`), handles tools (returning before any request on
the first tag mismatch), starts a chat with empty history, sends the
prompt, and accumulates the first candidate's parts by overwriting. -/
def geminiGenerateText (g : GeminiLLM)
    (client : GeminiRequest → Except String GeminiResponse)
    (prompt : String) (opts : Option GenerateOptions) : GeminiOutcome :=
  match geminiCollectTools (optTools opts) with
  | .error e => { result := .error e, requests := [], final := g }
  | .ok tools =>
    let req := geminiBuildRequest g prompt tools
    match client req with
    | .error msg =>
      { result := .error (.geminiSendError msg), requests := [req], final := g }
    | .ok resp =>
      { result := .ok (overwriteParts (resp.candidates.getD 0 [])), requests := [req], final := g }

/-- The `LLMConfig` struct used by the generic (`[T ToolType]`) adapter
revisions. -/
structure LLMConfig where
  modelName : String
  temperature : ℚ
  maxTokens : Int
  topP : ℚ
  deriving DecidableEq, Repr

/-- The tool loop of the generic `geminiLLM[T].GenerateText`: a bare type
assertion `any(opt.Tool).(genai.Tool)` with no tag check; failure message
`"tool doesn't implement genai.Tool"`. -/
def geminiCollectToolsT : List GenericTool → Except GenError (List GenaiTool)
  | [] => .ok []
  | t :: rest =>
    match t with
    | .geminiTool payload =>
      match geminiCollectToolsT rest with
      | .error e => .error e
      | .ok payloads => .ok (payload :: payloads)
    | _ => .error .geminiToolCastError

/-- The generic `geminiLLM[T].GenerateText` revision: sets
`ResponseMIMEType` to `"text/plain"`, and only inside the
`len(opts.Tools) > 0` branch updates it to `opts.ResponseMIMEType` when
that is non-empty — with an empty tool list the caller's MIME type is
never read. -/
def geminiGenerateTextT (cfg : LLMConfig)
    (client : GeminiRequest → Except String GeminiResponse)
    (prompt : String) (opts : Option GenerateOptions) :
    Except GenError String × List GeminiRequest :=
  let send := fun (tools : List GenaiTool) (mime : String) =>
    let req : GeminiRequest :=
      { modelName := cfg.modelName
        temperature := cfg.temperature
        topP := cfg.topP
        maxOutputTokens := cfg.maxTokens
        topK := 64
        responseMIMEType := mime
        tools := tools
        history := []
        prompt := prompt }
    match client req with
    | .error msg => (Except.error (GenError.geminiSendError msg), [req])
    | .ok resp => (Except.ok (overwriteParts (resp.candidates.getD 0 [])), [req])
  match opts with
  | none => send [] "text/plain"
  | some o =>
    if o.tools.isEmpty then
      send [] "text/plain"
    else
      match geminiCollectToolsT o.tools with
      | .error e => (.error e, [])
      | .ok tools =>
        let mime := if o.responseMIMEType ≠ "" then o.responseMIMEType else "text/plain"
        send tools mime

/-! ## Constructors and functional options (llm/main.go) -/

/-- A concrete adapter value as handed out by the factory functions; the
functional options type-switch over these three cases. -/
inductive AdapterValue where
  | anthropic (a : AnthropicLLM)
  | mistral (m : MistralLLM)
  | gemini (g : GeminiLLM)
  deriving DecidableEq, Repr

/-- Go `lLMOption`: a mutation applied to whichever concrete adapter it is
given. -/
def LLMOption : Type := AdapterValue → AdapterValue

/-- Go `WithMaxTokens`: type-switch on the concrete adapter and set its
`maxTokens` field. -/
def withMaxTokens (maxTokens : Int) : LLMOption := fun l =>
  match l with
  | .anthropic v => .anthropic { v with maxTokens := maxTokens }
  | .mistral v => .mistral { v with maxTokens := maxTokens }
  | .gemini v => .gemini { v with maxTokens := maxTokens }

/-- Go `WithModelName`: type-switch on the concrete adapter and set its
`modelName` field. -/
def withModelName (modelName : String) : LLMOption := fun l =>
  match l with
  | .anthropic v => .anthropic { v with modelName := modelName }
  | .mistral v => .mistral { v with modelName := modelName }
  | .gemini v => .gemini { v with modelName := modelName }

/-- The `for _, opt := range opts { opt(llm) }` loop of every factory. -/
def applyOptions (opts : List LLMOption) (l : AdapterValue) : AdapterValue :=
  opts.foldl (fun acc opt => opt acc) l

/-- The process environment: a partial map from variable names to
values. -/
def Env : Type := String → Option String

/-- Go's `os.Getenv`: the empty string when the variable is absent. -/
def osGetenv (env : Env) (key : String) : String :=
  (env key).getD ""

/-- The external constant `anthropic.ModelClaudeInstant1Dot2`. -/
def anthropicModelClaudeInstant1Dot2 : String := "claude-instant-1.2"

/-- Go `NewAnthropicLLM`: reads `CLAUDE_API_KEY` with `os.Getenv` (no
presence check — an absent variable yields the empty key), builds the
adapter with the documented defaults, applies the options in order. It
has no failure path. -/
def newAnthropicLLM (env : Env) (opts : List LLMOption) : Except String AdapterValue :=
  let key := osGetenv env "CLAUDE_API_KEY"
  .ok (applyOptions opts (.anthropic
    { modelName := anthropicModelClaudeInstant1Dot2
      temperature := 7/10
      maxTokens := 512
      topP := 1
      apiKey := key }))

/-- Go `NewMistralLLM`: builds the adapter with the documented defaults and a
client from `mistral.NewMistralClientDefault("")` (credential lookup is
internal to that external library), applies the options in order. It has
no failure path. -/
def newMistralLLM (opts : List LLMOption) : Except String AdapterValue :=
  .ok (applyOptions opts (.mistral
    { modelName := "mistral-small-latest"
      temperature := 7/10
      maxTokens := 512
      topP := 1 }))

/-- Go `NewGeminiClient`: `os.LookupEnv("GEMINI_API_KEY")`; when absent,
`log.Fatalln` aborts construction (modelled as the error case) before any
client exists; otherwise build the client and adapter with the documented
defaults and apply the options in order. -/
def newGeminiClient (env : Env) (opts : List LLMOption) : Except String AdapterValue :=
  match env "GEMINI_API_KEY" with
  | none => .error "Environment variable GEMINI_API_KEY not set"
  | some apiKey =>
    .ok (applyOptions opts (.gemini
      { modelName := "gemini-1.5-pro-exp-0801"
        temperature := 7/10
        maxTokens := 512
        topP := 1
        apiKey := apiKey }))

/-- A concrete fully-populated insights value, used by witnesses. -/
def sampleInsights : InsightsResult :=
  { overallAssessment := "Needs improvement"
    correctAnswers := 5
    strengths := ["SQL queries"]
    weaknesses := ["Big data processing"]
    actionableFeedback := [("practice", "Work on Spark")]
    businessImpact := [("cost", "Inefficiency")] }

/-! ## Helper lemmas -/

lemma isErr_eq_true_iff {ε α : Type} (x : Except ε α) :
    isErr x = true ↔ ∃ e, x = .error e := by
  cases x <;> simp [isErr]

/-- If every attempt in range fails, the loop exhausts its fuel and emits
nothing, making one capability call per unit of fuel. -/
lemma processElementLoop_all_err
    (extract : Nat → Except ExtractErr InsightsResult) :
    ∀ (fuel attempt : Nat),
      (∀ i, i < fuel → isErr (extract (attempt + i)) = true) →
      processElementLoop extract fuel attempt = ([], fuel) := by
  intro fuel
  induction fuel with
  | zero => intro attempt _; rfl
  | succ n ih =>
    intro attempt h
    have h0 : isErr (extract attempt) = true := by
      have := h 0 (Nat.succ_pos n)
      simpa using this
    rcases (isErr_eq_true_iff (extract attempt)).mp h0 with ⟨e, he⟩
    have hrest : ∀ i, i < n → isErr (extract (attempt + 1 + i)) = true := by
      intro i hi
      have := h (i + 1) (Nat.succ_lt_succ hi)
      simpa [Nat.add_assoc, Nat.add_comm 1 i] using this
    simp [processElementLoop, he, ih (attempt + 1) hrest]

/-- A failing attempt is one on which `extractInsights` errors out; its
two possible causes, phrased on the capability and the decoder. -/
def attemptFails (ei : ExtractInsightsCfg) (gen : Capability)
    (unmarshal : String → Except String InsightsResult)
    (assessment : Assessment) (i : Nat) : Prop :=
  (∃ e, gen i (buildPrompt ei.insightsSchema assessment.result) jsonGenerateOptions
      = .error e) ∨
  (∃ t msg, gen i (buildPrompt ei.insightsSchema assessment.result) jsonGenerateOptions
      = .ok t ∧ unmarshal t = .error msg)

lemma extractInsights_isErr_of_attemptFails (ei : ExtractInsightsCfg)
    (gen : Capability) (unmarshal : String → Except String InsightsResult)
    (assessment : Assessment) (i : Nat)
    (h : attemptFails ei gen unmarshal assessment i) :
    isErr (extractInsights ei gen unmarshal assessment i) = true := by
  rcases h with ⟨e, he⟩ | ⟨t, msg, ht, hmsg⟩
  · simp [extractInsights, he, isErr]
  · simp [extractInsights, ht, hmsg, isErr]

/-! ## Claims about the extraction element -/

/-- C1: with `maxAttempts = 3`, transport failures on the first two
capability calls and a schema-valid response on the third, `ProcessElement`
emits exactly one `InsightsResult` — the decoding of the third response —
after exactly three capability calls. -/
theorem retry_succeeds_on_third_attempt (cfg : ExtractInsightsCfg)
    (hm : cfg.maxRetries = 3) (gen : Capability)
    (unmarshal : String → Except String InsightsResult) (a : Assessment)
    (e1 e2 : GenError) (t : String) (r : InsightsResult)
    (h1 : gen 0 (buildPrompt cfg.insightsSchema a.result) jsonGenerateOptions
        = .error e1)
    (ht1 : e1.isTransport = true)
    (h2 : gen 1 (buildPrompt cfg.insightsSchema a.result) jsonGenerateOptions
        = .error e2)
    (ht2 : e2.isTransport = true)
    (h3 : gen 2 (buildPrompt cfg.insightsSchema a.result) jsonGenerateOptions
        = .ok t)
    (hr : unmarshal t = .ok r) :
    processElement cfg gen unmarshal a = ([r], 3) := by
  have x0 : extractInsights cfg gen unmarshal a 0 = .error (.generating e1) := by
    simp [extractInsights, h1]
  have x1 : extractInsights cfg gen unmarshal a 1 = .error (.generating e2) := by
    simp [extractInsights, h2]
  have x2 : extractInsights cfg gen unmarshal a 2 = .ok r := by
    simp [extractInsights, h3, hr]
  simp [processElement, hm, processElementLoop, x0, x1, x2]

/-- C1 witness: a concrete capability that fails twice with a transport
error then returns decodable text. -/
theorem retry_succeeds_on_third_attempt_witness :
    processElement { insightsSchema := "s", maxRetries := 3, retryDelay := 0 }
      (fun n _ _ =>
        if n = 0 then .error (.geminiSendError "t1")
        else if n = 1 then .error (.geminiSendError "t2")
        else .ok "good")
      (fun s => if s = "good" then .ok sampleInsights else .error "bad")
      ⟨"narrative"⟩ = ([sampleInsights], 3) :=
  retry_succeeds_on_third_attempt
    { insightsSchema := "s", maxRetries := 3, retryDelay := 0 } rfl _ _ _
    (.geminiSendError "t1") (.geminiSendError "t2") "good" sampleInsights
    rfl rfl rfl rfl rfl (by simp)

/-- C2: when every one of the `maxAttempts` capability invocations fails
(any mix of transport and parse failures), the element emits nothing at
all — an empty emission stream, distinct from emitting any
`InsightsResult`, the zero value included. -/
theorem exhausted_retries_emit_nothing (cfg : ExtractInsightsCfg) (n : Nat)
    (hm : cfg.maxRetries = (n : Int)) (gen : Capability)
    (unmarshal : String → Except String InsightsResult) (a : Assessment)
    (hfail : ∀ i, i < n → attemptFails cfg gen unmarshal a i) :
    (processElement cfg gen unmarshal a).1 = [] ∧
      (processElement cfg gen unmarshal a).2 = n ∧
      ∀ r : InsightsResult, (processElement cfg gen unmarshal a).1 ≠ [r] := by
  have htn : cfg.maxRetries.toNat = n := by rw [hm]; omega
  have hloop : processElementLoop (extractInsights cfg gen unmarshal a) n 0
      = ([], n) := by
    apply processElementLoop_all_err
    intro i hi
    have := extractInsights_isErr_of_attemptFails cfg gen unmarshal a i
      (hfail i hi)
    simpa using this
  refine ⟨?_, ?_, ?_⟩ <;> simp [processElement, htn, hloop]

/-- C2 witness: three attempts, failing with a transport error, a parse
error, then a transport error. -/
theorem exhausted_retries_emit_nothing_witness :
    (processElement { insightsSchema := "s", maxRetries := 3, retryDelay := 0 }
        (fun n _ _ =>
          if n = 0 then .error (.geminiSendError "t1")
          else if n = 1 then .ok "garbage"
          else .error (.geminiSendError "t3"))
        (fun _ => .error "invalid character")
        ⟨"narrative"⟩).1 = [] ∧
      (processElement { insightsSchema := "s", maxRetries := 3, retryDelay := 0 }
        (fun n _ _ =>
          if n = 0 then .error (.geminiSendError "t1")
          else if n = 1 then .ok "garbage"
          else .error (.geminiSendError "t3"))
        (fun _ => .error "invalid character")
        ⟨"narrative"⟩).1 ≠ [zeroInsightsResult] := by
  have h := exhausted_retries_emit_nothing
    { insightsSchema := "s", maxRetries := 3, retryDelay := 0 } 3 rfl
    (fun n _ _ =>
      if n = 0 then .error (.geminiSendError "t1")
      else if n = 1 then .ok "garbage"
      else .error (.geminiSendError "t3"))
    (fun _ => .error "invalid character")
    ⟨"narrative"⟩
    (by
      intro i hi
      interval_cases i
      · exact Or.inl ⟨.geminiSendError "t1", rfl⟩
      · exact Or.inr ⟨"garbage", "invalid character", rfl, rfl⟩
      · exact Or.inl ⟨.geminiSendError "t3", rfl⟩)
  exact ⟨h.1, h.2.2 zeroInsightsResult⟩

/-- C7 counterexample: with `maxAttempts = 3` and a capability that fails
every call with the tool-type-mismatch error, the element makes three
capability calls, not one — the mismatch error is retried like any other
error. -/
theorem tool_mismatch_retried_counterexample :
    (processElement { insightsSchema := "s", maxRetries := 3, retryDelay := 0 }
        (fun _ _ _ => .error (.toolMismatch "Anthropic"))
        (fun _ => .error "unused") ⟨"narrative"⟩).2 = 3 ∧
      (processElement { insightsSchema := "s", maxRetries := 3, retryDelay := 0 }
        (fun _ _ _ => .error (.toolMismatch "Anthropic"))
        (fun _ => .error "unused") ⟨"narrative"⟩).2 ≠ 1 := by
  constructor
  · rfl
  · intro h
    simp [processElement, processElementLoop, extractInsights] at h

/-- C7 amended: `ProcessElement` treats a tool-type-mismatch failure
exactly like a transport failure — it keeps retrying until `MaxRetries`
attempts are exhausted, then emits nothing. -/
theorem tool_mismatch_retried_until_exhaustion (cfg : ExtractInsightsCfg)
    (gen : Capability) (unmarshal : String → Except String InsightsResult)
    (a : Assessment) (provider : String)
    (hgen : ∀ i p o, gen i p o = .error (.toolMismatch provider)) :
    processElement cfg gen unmarshal a = ([], cfg.maxRetries.toNat) := by
  have hall : ∀ i, i < cfg.maxRetries.toNat →
      isErr (extractInsights cfg gen unmarshal a i) = true := by
    intro i _
    simp [extractInsights, hgen, isErr]
  have := processElementLoop_all_err (extractInsights cfg gen unmarshal a)
    cfg.maxRetries.toNat 0 (by intro i hi; simpa using hall i hi)
  simpa [processElement] using this

/-- C7 amended witness: two attempts, both mismatch failures, both
consumed. -/
theorem tool_mismatch_retried_until_exhaustion_witness :
    processElement { insightsSchema := "s", maxRetries := 2, retryDelay := 0 }
      (fun _ _ _ => .error (.toolMismatch "Gemini"))
      (fun _ => .error "unused") ⟨"narrative"⟩ = ([], 2) :=
  tool_mismatch_retried_until_exhaustion
    { insightsSchema := "s", maxRetries := 2, retryDelay := 0 } _ _ _
    "Gemini" (fun _ _ _ => rfl)

/-- C10: constructing the element with `MaxRetries ≤ 0` makes
`ProcessElement` drop every record silently: the capability is never
invoked and nothing is emitted. -/
theorem nonpositive_max_retries_drops_records (maxRetries retryDelay : Int)
    (hm : maxRetries ≤ 0) (schema : String) (gen : Capability)
    (unmarshal : String → Except String InsightsResult) (a : Assessment) :
    processElement
      { newExtractInsights maxRetries retryDelay with insightsSchema := schema }
      gen unmarshal a = ([], 0) := by
  have h0 : maxRetries.toNat = 0 := Int.toNat_of_nonpos hm
  simp [processElement, newExtractInsights, h0, processElementLoop]

/-- C10 witness: `MaxRetries = -1` drops the record with zero capability
calls. -/
theorem nonpositive_max_retries_drops_records_witness :
    processElement
      { newExtractInsights (-1) 10 with insightsSchema := "s" }
      (fun _ _ _ => .ok "text") (fun _ => .ok sampleInsights)
      ⟨"narrative"⟩ = ([], 0) :=
  nonpositive_max_retries_drops_records (-1) 10 (by decide) "s" _ _ _

/-! ## Claims about the adapters -/

lemma anthropicCollectTools_mismatch (tools : List GenericTool)
    (h : ∃ t ∈ tools, t.toolType ≠ ToolType.anthropicToolType) :
    anthropicCollectTools tools = .error (.toolMismatch "Anthropic") := by
  induction tools with
  | nil => simp at h
  | cons t rest ih =>
    by_cases htag : t.toolType = ToolType.anthropicToolType
    · rcases h with ⟨u, hu, hne⟩
      have hrest : ∃ u ∈ rest, u.toolType ≠ ToolType.anthropicToolType := by
        rcases List.mem_cons.mp hu with rfl | hmem
        · exact absurd htag hne
        · exact ⟨u, hmem, hne⟩
      cases t with
      | anthropicTool p => simp [anthropicCollectTools, htag, ih hrest]
      | mistralTool p => simp [GenericTool.toolType] at htag
      | geminiTool p => simp [GenericTool.toolType] at htag
    · simp [anthropicCollectTools, htag]

lemma geminiCollectTools_mismatch (tools : List GenericTool)
    (h : ∃ t ∈ tools, t.toolType ≠ ToolType.geminiToolType) :
    geminiCollectTools tools = .error (.toolMismatch "Gemini") := by
  induction tools with
  | nil => simp at h
  | cons t rest ih =>
    by_cases htag : t.toolType = ToolType.geminiToolType
    · rcases h with ⟨u, hu, hne⟩
      have hrest : ∃ u ∈ rest, u.toolType ≠ ToolType.geminiToolType := by
        rcases List.mem_cons.mp hu with rfl | hmem
        · exact absurd htag hne
        · exact ⟨u, hmem, hne⟩
      cases t with
      | geminiTool p => simp [geminiCollectTools, htag, ih hrest]
      | anthropicTool p => simp [GenericTool.toolType] at htag
      | mistralTool p => simp [GenericTool.toolType] at htag
    · simp [geminiCollectTools, htag]

lemma mistralCollectTools_mismatch (tools : List GenericTool)
    (h : ∃ t ∈ tools, t.toolType ≠ ToolType.mistralToolType) :
    mistralCollectTools tools = .error (.toolMismatch "Mistral") := by
  induction tools with
  | nil => simp at h
  | cons t rest ih =>
    by_cases htag : t.toolType = ToolType.mistralToolType
    · rcases h with ⟨u, hu, hne⟩
      have hrest : ∃ u ∈ rest, u.toolType ≠ ToolType.mistralToolType := by
        rcases List.mem_cons.mp hu with rfl | hmem
        · exact absurd htag hne
        · exact ⟨u, hmem, hne⟩
      cases t with
      | mistralTool p => simp [mistralCollectTools, htag, ih hrest]
      | anthropicTool p => simp [GenericTool.toolType] at htag
      | geminiTool p => simp [GenericTool.toolType] at htag
    · simp [mistralCollectTools, htag]

/-- C3: any options value carrying a descriptor tagged for another
provider makes `GenerateText` fail with the tool-type-mismatch error
naming the expected provider, with no provider request issued — for the
Anthropic adapter, the Gemini adapter, and the (spec-modelled)
options-taking Mistral adapter alike. -/
theorem tool_mismatch_fails_before_request :
    (∀ (a : AnthropicLLM)
        (client : AnthropicRequest → Except AnthropicClientError AnthropicResponse)
        (prompt : String) (opts : GenerateOptions),
      (∃ t ∈ opts.tools, t.toolType ≠ ToolType.anthropicToolType) →
      (anthropicGenerateText a client prompt (some opts)).result
          = .error (.toolMismatch "Anthropic") ∧
        (anthropicGenerateText a client prompt (some opts)).requests = [] ∧
        GenError.message (.toolMismatch "Anthropic")
          = "error: tool type mismatch for Anthropic LLM") ∧
    (∀ (g : GeminiLLM)
        (client : GeminiRequest → Except String GeminiResponse)
        (prompt : String) (opts : GenerateOptions),
      (∃ t ∈ opts.tools, t.toolType ≠ ToolType.geminiToolType) →
      (geminiGenerateText g client prompt (some opts)).result
          = .error (.toolMismatch "Gemini") ∧
        (geminiGenerateText g client prompt (some opts)).requests = [] ∧
        GenError.message (.toolMismatch "Gemini")
          = "error: tool type mismatch for Gemini LLM") ∧
    (∀ (m : MistralLLM)
        (client : MistralRequest → Except String MistralResponse)
        (prompt : String) (opts : GenerateOptions),
      (∃ t ∈ opts.tools, t.toolType ≠ ToolType.mistralToolType) →
      (mistralGenerateTextTagged m client prompt (some opts)).result
          = .error (.toolMismatch "Mistral") ∧
        (mistralGenerateTextTagged m client prompt (some opts)).requests = [] ∧
        GenError.message (.toolMismatch "Mistral")
          = "error: tool type mismatch for Mistral LLM") := by
  refine ⟨?_, ?_, ?_⟩
  · intro a client prompt opts h
    have hc := anthropicCollectTools_mismatch opts.tools h
    refine ⟨?_, ?_, rfl⟩ <;> simp [anthropicGenerateText, optTools, hc]
  · intro g client prompt opts h
    have hc := geminiCollectTools_mismatch opts.tools h
    refine ⟨?_, ?_, rfl⟩ <;> simp [geminiGenerateText, optTools, hc]
  · intro m client prompt opts h
    have hc := mistralCollectTools_mismatch opts.tools h
    refine ⟨?_, ?_, rfl⟩ <;> simp [mistralGenerateTextTagged, optTools, hc]

/-- C3 witness: a Gemini-tagged descriptor handed to the Anthropic
adapter, an Anthropic-tagged descriptor handed to the Gemini adapter, and
a Gemini-tagged descriptor handed to the Mistral adapter. -/
theorem tool_mismatch_fails_before_request_witness :
    ((anthropicGenerateText
        { modelName := "claude-instant-1.2", temperature := 7/10,
          maxTokens := 512, topP := 1, apiKey := "k" }
        (fun _ => .ok ⟨["Anthropic Response"]⟩) "p"
        (some { tools := [.geminiTool ⟨"g"⟩], responseMIMEType := "" })).result
      = .error (.toolMismatch "Anthropic")) ∧
    ((geminiGenerateText
        { modelName := "gemini-1.5-pro-exp-0801", temperature := 7/10,
          maxTokens := 512, topP := 1, apiKey := "k" }
        (fun _ => .ok ⟨[["Gemini Response"]]⟩) "p"
        (some { tools := [.anthropicTool ⟨"a"⟩], responseMIMEType := "" })).requests
      = []) ∧
    ((mistralGenerateTextTagged
        { modelName := "mistral-small-latest", temperature := 7/10,
          maxTokens := 512, topP := 1 }
        (fun _ => .ok ⟨["Mistral Response"]⟩) "p"
        (some { tools := [.geminiTool ⟨"g"⟩], responseMIMEType := "" })).result
      = .error (.toolMismatch "Mistral")) := by
  refine ⟨?_, ?_, ?_⟩
  · exact (tool_mismatch_fails_before_request.1 _ _ _ _
      ⟨.geminiTool ⟨"g"⟩, by simp, by simp [GenericTool.toolType]⟩).1
  · exact (tool_mismatch_fails_before_request.2.1 _ _ _ _
      ⟨.anthropicTool ⟨"a"⟩, by simp, by simp [GenericTool.toolType]⟩).2.1
  · exact (tool_mismatch_fails_before_request.2.2 _ _ _ _
      ⟨.geminiTool ⟨"g"⟩, by simp, by simp [GenericTool.toolType]⟩).1

/-- C4 counterexample: with `CLAUDE_API_KEY` absent from the environment,
`NewAnthropicLLM` does not fail — it constructs the adapter with an empty
credential, refuting "constructing the adapter when the credential
environment variable is absent fails fast" for the Anthropic provider. -/
theorem anthropic_constructor_ignores_missing_key :
    ((fun _ => none : Env) "CLAUDE_API_KEY" = none) ∧
      newAnthropicLLM (fun _ => none) []
        = .ok (.anthropic
            { modelName := anthropicModelClaudeInstant1Dot2,
              temperature := 7/10, maxTokens := 512, topP := 1,
              apiKey := "" }) :=
  ⟨rfl, rfl⟩

/-- C4 amended: only the Gemini factory fails fast on a missing
credential (with no request attempted, since construction aborts before a
client exists); `NewAnthropicLLM` reads `CLAUDE_API_KEY` with `os.Getenv`
and always constructs (empty key when absent), and `NewMistralLLM`
delegates the credential to the external client library and always
constructs. -/
theorem only_gemini_fails_fast_on_missing_key :
    (∀ (env : Env) (opts : List LLMOption), env "GEMINI_API_KEY" = none →
      newGeminiClient env opts
        = .error "Environment variable GEMINI_API_KEY not set") ∧
    (∀ (env : Env) (opts : List LLMOption),
      ∃ l, newAnthropicLLM env opts = .ok l) ∧
    (∀ opts : List LLMOption, ∃ l, newMistralLLM opts = .ok l) := by
  refine ⟨?_, ?_, ?_⟩
  · intro env opts h
    simp [newGeminiClient, h]
  · intro env opts
    exact ⟨_, rfl⟩
  · intro opts
    exact ⟨_, rfl⟩

/-- C4 amended witness: the empty environment. -/
theorem only_gemini_fails_fast_on_missing_key_witness :
    newGeminiClient (fun _ => none) []
        = .error "Environment variable GEMINI_API_KEY not set" ∧
      ∃ l, newAnthropicLLM (fun _ => none) [] = .ok l :=
  ⟨only_gemini_fails_fast_on_missing_key.1 (fun _ => none) [] rfl,
    only_gemini_fails_fast_on_missing_key.2.1 (fun _ => none) []⟩

/-- C5: the Gemini adapter called with `responseMimeType
"application/json"` and no tools still issues its request with
`ResponseMIMEType "text/plain"` — the non-generic revision never reads the
option, and the generic revision only reads it inside the non-empty-tools
branch. The extraction element makes exactly this call. -/
theorem gemini_mime_type_not_forwarded :
    ((geminiGenerateText
        { modelName := "gemini-1.5-pro-exp-0801", temperature := 7/10,
          maxTokens := 8192, topP := 1, apiKey := "k" }
        (fun _ => .ok ⟨[["out"]]⟩) "p"
        (some { tools := [], responseMIMEType := "application/json" })).requests.map
        (fun r => r.responseMIMEType)) = ["text/plain"] ∧
    ((geminiGenerateTextT
        { modelName := "gemini-1.5-pro-exp-0801", temperature := 7/10,
          maxTokens := 8192, topP := 1 }
        (fun _ => .ok ⟨[["out"]]⟩) "p"
        (some { tools := [], responseMIMEType := "application/json" })).2.map
        (fun r => r.responseMIMEType)) = ["text/plain"] :=
  ⟨rfl, rfl⟩

/-- C6 counterexample: a successful Gemini response whose first candidate
has the single part `"hi"` comes back from `GenerateText` as `"hi\n"`,
not the verbatim `"hi"` — the adapter post-processes each part with
`fmt.Sprintf("%v\n", part)`. -/
theorem gemini_output_not_verbatim :
    (geminiGenerateText
        { modelName := "gemini-1.5-pro-exp-0801", temperature := 7/10,
          maxTokens := 512, topP := 1, apiKey := "k" }
        (fun _ => .ok ⟨[["hi"]]⟩) "p" none).result = .ok "hi\n" ∧
      ("hi\n" : String) ≠ "hi" := by
  exact ⟨rfl, by decide⟩

lemma overwriteParts_eq_getLast (parts : List String) :
    overwriteParts parts
      = (match parts.getLast? with
         | none => ""
         | some p => p ++ "\n") := by
  induction parts with
  | nil => rfl
  | cons p rest ih =>
    cases rest with
    | nil => rfl
    | cons q rest2 =>
      have step : overwriteParts (p :: q :: rest2) = overwriteParts (q :: rest2) := by
        simp [overwriteParts]
      rw [step, ih]
      simp [List.getLast?]

/-- C6 amended: the Anthropic and Mistral adapters return the first
generated segment verbatim; the Gemini adapter overwrites its accumulator
across the first candidate's parts and returns the last part with a
trailing newline (the empty string when there are no parts). -/
theorem first_segment_verbatim_except_gemini :
    (∀ (a : AnthropicLLM)
        (client : AnthropicRequest → Except AnthropicClientError AnthropicResponse)
        (prompt : String) (resp : AnthropicResponse) (t : String)
        (rest : List String),
      client (anthropicBuildRequest a prompt []) = .ok resp →
      resp.content = t :: rest →
      (anthropicGenerateText a client prompt none).result = .ok t) ∧
    (∀ (m : MistralLLM)
        (client : MistralRequest → Except String MistralResponse)
        (prompt : String) (resp : MistralResponse) (t : String)
        (rest : List String),
      client (mistralBuildRequest m prompt []) = .ok resp →
      resp.choices = t :: rest →
      (mistralGenerateText m client prompt).result = .ok t) ∧
    (∀ (g : GeminiLLM)
        (client : GeminiRequest → Except String GeminiResponse)
        (prompt : String) (resp : GeminiResponse),
      client (geminiBuildRequest g prompt []) = .ok resp →
      (geminiGenerateText g client prompt none).result
        = .ok (match (resp.candidates.getD 0 []).getLast? with
               | none => ""
               | some p => p ++ "\n")) := by
  refine ⟨?_, ?_, ?_⟩
  · intro a client prompt resp t rest hc hcont
    simp [anthropicGenerateText, optTools, anthropicCollectTools, hc, hcont]
  · intro m client prompt resp t rest hc hcont
    simp [mistralGenerateText, hc, hcont]
  · intro g client prompt resp hc
    simp [geminiGenerateText, optTools, geminiCollectTools, hc,
      overwriteParts_eq_getLast]

/-- C6 amended witness: concrete clients; the Gemini response has two
parts and the second one, newline-terminated, is returned. -/
theorem first_segment_verbatim_except_gemini_witness :
    ((anthropicGenerateText
        { modelName := "claude-instant-1.2", temperature := 7/10,
          maxTokens := 512, topP := 1, apiKey := "k" }
        (fun _ => .ok ⟨["Anthropic Response", "second"]⟩) "p" none).result
      = .ok "Anthropic Response") ∧
    ((mistralGenerateText
        { modelName := "mistral-small-latest", temperature := 7/10,
          maxTokens := 512, topP := 1 }
        (fun _ => .ok ⟨["Mistral Response"]⟩) "p").result
      = .ok "Mistral Response") ∧
    ((geminiGenerateText
        { modelName := "gemini-1.5-pro-exp-0801", temperature := 7/10,
          maxTokens := 512, topP := 1, apiKey := "k" }
        (fun _ => .ok ⟨[["first", "second"]]⟩) "p" none).result
      = .ok "second\n") := by
  refine ⟨?_, ?_, ?_⟩
  · exact first_segment_verbatim_except_gemini.1 _ _ "p"
      ⟨["Anthropic Response", "second"]⟩ "Anthropic Response" ["second"] rfl rfl
  · exact first_segment_verbatim_except_gemini.2.1 _ _ "p"
      ⟨["Mistral Response"]⟩ "Mistral Response" [] rfl rfl
  · exact first_segment_verbatim_except_gemini.2.2 _ _ "p"
      ⟨[["first", "second"]]⟩ rfl

/-- C8: each factory with no options yields the documented defaults
(temperature 0.7, max tokens 512, top-p 1, provider-specific model name),
and option functions apply in the order given with last write winning:
`[WithModelName X, WithModelName Y]` ends with model name `Y`. -/
theorem defaults_and_last_write_wins :
    (∀ env : Env, newAnthropicLLM env []
        = .ok (.anthropic
            { modelName := anthropicModelClaudeInstant1Dot2,
              temperature := 7/10, maxTokens := 512, topP := 1,
              apiKey := osGetenv env "CLAUDE_API_KEY" })) ∧
    (newMistralLLM []
        = .ok (.mistral
            { modelName := "mistral-small-latest", temperature := 7/10,
              maxTokens := 512, topP := 1 })) ∧
    (∀ (env : Env) (key : String), env "GEMINI_API_KEY" = some key →
      newGeminiClient env []
        = .ok (.gemini
            { modelName := "gemini-1.5-pro-exp-0801", temperature := 7/10,
              maxTokens := 512, topP := 1, apiKey := key })) ∧
    (∀ (env : Env) (x y : String),
      newAnthropicLLM env [withModelName x, withModelName y]
        = .ok (.anthropic
            { modelName := y, temperature := 7/10, maxTokens := 512,
              topP := 1, apiKey := osGetenv env "CLAUDE_API_KEY" })) := by
  refine ⟨fun env => rfl, rfl, ?_, fun env x y => rfl⟩
  intro env key h
  simp [newGeminiClient, h, applyOptions]

/-- C8 witness: an environment carrying a Gemini key. -/
theorem defaults_and_last_write_wins_witness :
    newGeminiClient (fun k => if k = "GEMINI_API_KEY" then some "gk" else none) []
        = .ok (.gemini
            { modelName := "gemini-1.5-pro-exp-0801", temperature := 7/10,
              maxTokens := 512, topP := 1, apiKey := "gk" }) ∧
      newAnthropicLLM (fun _ => none) [withModelName "X", withModelName "Y"]
        = .ok (.anthropic
            { modelName := "Y", temperature := 7/10, maxTokens := 512,
              topP := 1, apiKey := "" }) :=
  ⟨defaults_and_last_write_wins.2.2.1
      (fun k => if k = "GEMINI_API_KEY" then some "gk" else none) "gk" rfl,
    defaults_and_last_write_wins.2.2.2 (fun _ => none) "X" "Y"⟩

/-- C9: a `GenerateText` call leaves the adapter's configuration exactly
as it was — the Go methods never assign to their receiver's fields, so the
adapter value after the call equals the one before, for every adapter,
prompt, options value and client behaviour. -/
theorem generate_text_preserves_adapter_state :
    (∀ (a : AnthropicLLM)
        (client : AnthropicRequest → Except AnthropicClientError AnthropicResponse)
        (prompt : String) (opts : Option GenerateOptions),
      (anthropicGenerateText a client prompt opts).final = a) ∧
    (∀ (m : MistralLLM)
        (client : MistralRequest → Except String MistralResponse)
        (prompt : String),
      (mistralGenerateText m client prompt).final = m) ∧
    (∀ (g : GeminiLLM)
        (client : GeminiRequest → Except String GeminiResponse)
        (prompt : String) (opts : Option GenerateOptions),
      (geminiGenerateText g client prompt opts).final = g) := by
  refine ⟨?_, ?_, ?_⟩
  · intro a client prompt opts
    cases h1 : anthropicCollectTools (optTools opts) with
    | error e => simp [anthropicGenerateText, h1]
    | ok tools =>
      cases h2 : client (anthropicBuildRequest a prompt tools) with
      | error ce => cases ce <;> simp [anthropicGenerateText, h1, h2]
      | ok resp => simp [anthropicGenerateText, h1, h2]
  · intro m client prompt
    cases h2 : client (mistralBuildRequest m prompt []) with
    | error msg => simp [mistralGenerateText, h2]
    | ok resp => simp [mistralGenerateText, h2]
  · intro g client prompt opts
    cases h1 : geminiCollectTools (optTools opts) with
    | error e => simp [geminiGenerateText, h1]
    | ok tools =>
      cases h2 : client (geminiBuildRequest g prompt tools) with
      | error msg => simp [geminiGenerateText, h1, h2]
      | ok resp => simp [geminiGenerateText, h1, h2]

end Pipeline
